import Mathlib

/-!
Verification of the Soil Classification and Crop Suitability Recommendation
Engine of the AI-crop-recommendation repository.  The repository snapshot
contains only the engine's callers (the React frontend and a curl test
script); the engine itself is absent, so every engine definition below is
modelled from the design specification, as marked in its doc comment.
-/

/-- Modelled from the spec: the twelve USDA-style soil texture classes, plus
an unknown class used when clay, sand or silt is missing. -/
inductive TextureClass
  | sand
  | loamySand
  | sandyLoam
  | loam
  | siltLoam
  | silt
  | sandyClayLoam
  | clayLoam
  | siltyClayLoam
  | sandyClay
  | siltyClay
  | clay
  | unknown
deriving DecidableEq, Repr

/-- Modelled from the spec: the three water-requirement categories of a crop
profile, also used as the moisture category of a soil sample. -/
inductive WaterReq
  | low
  | medium
  | high
deriving DecidableEq, Repr

/-- Modelled from the spec: a soil sample; every attribute is optional and
absence is meaningful, not zero. -/
structure SoilSample where
  ph : Option ℚ
  nitrogen : Option ℚ
  phosphorus : Option ℚ
  potassium : Option ℚ
  moisture : Option ℚ
  organic_matter : Option ℚ
  temperature : Option ℚ
  clay : Option ℚ
  sand : Option ℚ
  silt : Option ℚ
deriving DecidableEq, Repr

/-- Modelled from the spec: an optional weather snapshot. -/
structure WeatherSnapshot where
  temperature : ℚ
  humidity : ℚ
deriving DecidableEq, Repr

/-- Modelled from the spec: an immutable crop catalog entry. -/
structure CropProfile where
  name : String
  optimal_ph_low : ℚ
  optimal_ph_high : ℚ
  optimal_temp_low : ℚ
  optimal_temp_high : ℚ
  water_requirement : WaterReq
  compatible_soil_types : List TextureClass
  season : String
  base_yield_per_area : ℚ
  base_cost_per_area : ℚ
  base_market_price : ℚ
deriving DecidableEq, Repr

/-- Modelled from the spec: an optional live market quote for one crop. -/
structure MarketQuote where
  current_price : ℚ
  unit : String
  demand_level : String
  market_trend : String
  price_change_percent : ℚ
deriving DecidableEq, Repr

/-- Modelled from the spec: the result of classifying one soil sample. -/
structure SoilClassification where
  texture_class : TextureClass
  fertility_level : String
  quality_score : ℚ
  recommendations : List String
deriving DecidableEq, Repr

/-- Modelled from the spec: the result of scoring one crop profile against
one soil/weather pair. -/
structure SuitabilityResult where
  crop_name : String
  score : ℚ
  confidence : ℚ
  factors : List String
deriving DecidableEq, Repr

/-- Modelled from the spec: the financial projection for one crop. -/
structure FinEstimate where
  estimated_yield : ℚ
  estimated_cost : ℚ
  estimated_profit : ℚ
  profit_margin : ℚ
deriving DecidableEq, Repr

/-- Modelled from the spec: one entry of the ranked recommendation list. -/
structure RecommendationResult where
  crop_name : String
  suitability_score : ℚ
  confidence : ℚ
  estimated_yield : ℚ
  estimated_cost : ℚ
  estimated_profit : ℚ
  profit_margin : ℚ
  exceeds_budget : Bool
  market_data : Option MarketQuote
  factors : List String
deriving DecidableEq, Repr

/-- Modelled from the spec: the boundary response; a validation failure
carries an explicit error message and an empty recommendation list. -/
structure RecommendResponse where
  error : Option String
  recommendations : List RecommendationResult
  more_count : Nat
deriving DecidableEq, Repr

/-- Clamp a value into the closed interval from lo to hi. -/
def clamp (lo hi v : ℚ) : ℚ := min hi (max lo v)

/-- Modelled from the spec: out-of-range values are clamped to their
documented physical range bounds before scoring rather than rejected. -/
def clampSample (s : SoilSample) : SoilSample where
  ph := s.ph.map (clamp 0 14)
  nitrogen := s.nitrogen.map (max 0)
  phosphorus := s.phosphorus.map (max 0)
  potassium := s.potassium.map (max 0)
  moisture := s.moisture.map (clamp 0 1)
  organic_matter := s.organic_matter.map (clamp 0 100)
  temperature := s.temperature
  clay := s.clay.map (clamp 0 100)
  sand := s.sand.map (clamp 0 100)
  silt := s.silt.map (clamp 0 100)

/-- Modelled from the spec: the tent function used by per-factor scoring;
100 inside the closed interval, linear decay to 0 at a margin of
(hi - lo) beyond either bound, floored at 0 beyond that. -/
def tentScore (lo hi v : ℚ) : ℚ :=
  if lo ≤ v ∧ v ≤ hi then 100
  else if v < lo then max 0 (100 * (1 - (lo - v) / (hi - lo)))
  else max 0 (100 * (1 - (v - hi) / (hi - lo)))

/-- Modelled from the spec: the ordered USDA-texture-triangle rule table,
evaluated top to bottom, first match wins, on percentages normalized to
sum to 100. -/
def usdaClass (c sa si : ℚ) : TextureClass :=
  if si + 3/2 * c < 15 then .sand
  else if si + 2 * c < 30 then .loamySand
  else if (7 ≤ c ∧ c < 20 ∧ 52 < sa) ∨ (c < 7 ∧ si < 50) then .sandyLoam
  else if 7 ≤ c ∧ c < 27 ∧ 28 ≤ si ∧ si < 50 ∧ sa ≤ 52 then .loam
  else if 50 ≤ si ∧ ((12 ≤ c ∧ c < 27) ∨ (si < 80 ∧ c < 12)) then .siltLoam
  else if 80 ≤ si ∧ c < 12 then .silt
  else if 20 ≤ c ∧ c < 35 ∧ si < 28 ∧ 45 < sa then .sandyClayLoam
  else if 27 ≤ c ∧ c < 40 ∧ 20 < sa ∧ sa ≤ 45 then .clayLoam
  else if 27 ≤ c ∧ c < 40 ∧ sa ≤ 20 then .siltyClayLoam
  else if 35 ≤ c ∧ 45 < sa then .sandyClay
  else if 40 ≤ c ∧ 40 ≤ si then .siltyClay
  else if 40 ≤ c then .clay
  else .loam

/-- Modelled from the spec: texture classification; if any of clay, sand or
silt is absent the texture class is unknown, otherwise the three values are
normalized to sum to 100 and the ordered rule table is applied. -/
def textureClassOf (clay sand silt : Option ℚ) : TextureClass :=
  match clay with
  | none => .unknown
  | some c =>
    match sand with
    | none => .unknown
    | some sa =>
      match silt with
      | none => .unknown
      | some si =>
        let t := c + sa + si
        usdaClass (c * 100 / t) (sa * 100 / t) (si * 100 / t)

/-- Modelled from the spec: catalog-wide reference minimum for nitrogen. -/
def nitrogenRef : ℚ := 3/20

/-- Modelled from the spec: catalog-wide reference minimum for phosphorus. -/
def phosphorusRef : ℚ := 15

/-- Modelled from the spec: catalog-wide reference minimum for potassium. -/
def potassiumRef : ℚ := 120

/-- Score a nutrient against its reference minimum: full marks at or above
the reference, proportional below it. -/
def nutrientScore (ref v : ℚ) : ℚ := min 100 (v / ref * 100)

/-- Modelled from the spec: the list of fertility sub-scores of the present
attributes only; pH is penalized by distance from the 6.0 to 7.5 band,
nitrogen, phosphorus and potassium below their reference minimums, and
organic matter below 2 percent. -/
def fertilitySubScores (s : SoilSample) : List ℚ :=
  [s.ph.map (tentScore 6 (15/2)),
   s.nitrogen.map (nutrientScore nitrogenRef),
   s.phosphorus.map (nutrientScore phosphorusRef),
   s.potassium.map (nutrientScore potassiumRef),
   s.organic_matter.map (nutrientScore 2)].filterMap id

/-- Modelled from the spec: texture desirability for general cultivation;
loam and silt loam score highest, pure sand and pure clay lowest. -/
def textureDesirability : TextureClass → ℚ
  | .loam => 100
  | .siltLoam => 100
  | .sandyLoam => 80
  | .clayLoam => 75
  | .siltyClayLoam => 70
  | .silt => 70
  | .sandyClayLoam => 65
  | .loamySand => 50
  | .sandyClay => 45
  | .siltyClay => 45
  | .sand => 30
  | .clay => 30
  | .unknown => 0

/-- Modelled from the spec: the ordered diagnostic rule list, evaluated in
fixed order; each rule appends its message when its guard fires and the
rules are independent. -/
def diagnostics (s : SoilSample) : List String :=
  (match s.ph with
   | some v => if v < 11/2 then ["Soil is acidic, consider liming"] else []
   | none => []) ++
  (match s.ph with
   | some v => if 17/2 < v then ["Soil is alkaline, consider sulfur amendments"] else []
   | none => []) ++
  (match s.organic_matter with
   | some v => if v < 3/2 then ["Add organic compost"] else []
   | none => []) ++
  (match s.nitrogen with
   | some v => if v < nitrogenRef then ["Apply nitrogen fertilizer"] else []
   | none => []) ++
  (match s.phosphorus with
   | some v => if v < phosphorusRef then ["Apply phosphorus fertilizer"] else []
   | none => []) ++
  (match s.potassium with
   | some v => if v < potassiumRef then ["Apply potassium fertilizer"] else []
   | none => [])

/-- Mean of the present sub-scores, with a neutral default when none is
present. -/
def meanOr (default : ℚ) (l : List ℚ) : ℚ :=
  if l = [] then default else l.sum / (l.length : ℚ)

/-- Modelled from the spec: classification of an already clamped sample;
fertility is the equal-weighted average of the present sub-scores, quality
blends fertility (60 percent) with texture desirability (40 percent) and
renormalizes to fertility alone when the texture is unknown. -/
def classifyClamped (s : SoilSample) : SoilClassification :=
  let tc := textureClassOf s.clay s.sand s.silt
  let fert := meanOr 50 (fertilitySubScores s)
  { texture_class := tc
    fertility_level := if 75 ≤ fert then "high" else if 45 ≤ fert then "medium" else "low"
    quality_score := if tc = .unknown then fert else 3/5 * fert + 2/5 * textureDesirability tc
    recommendations := diagnostics s }

/-- Modelled from the spec: SoilClassifier.classify never raises; present
values are clamped to their range bounds before scoring and missing fields
only shrink the factor set. -/
def classify (s : SoilSample) : SoilClassification :=
  classifyClamped (clampSample s)

/-- Modelled from the spec: the temperature value used by scoring comes
from the weather snapshot when present, else from the soil sample, else the
temperature factor is excluded. -/
def tempValue (soil : SoilSample) (weather : Option WeatherSnapshot) : Option ℚ :=
  match weather with
  | some w => some w.temperature
  | none => soil.temperature

/-- Modelled from the spec: the moisture category of a soil moisture
fraction in the 0 to 1 range. -/
def moistureCategory (m : ℚ) : WaterReq :=
  if m < 1/3 then .low else if m < 2/3 then .medium else .high

/-- Numeric index of a water-requirement category, for adjacency. -/
def WaterReq.idx : WaterReq → ℤ
  | .low => 0
  | .medium => 1
  | .high => 2

/-- Modelled from the spec: categorical moisture scoring; exact match 100,
adjacent category 50, opposite 0. -/
def moistureMatchScore (wr : WaterReq) (m : ℚ) : ℚ :=
  let c := moistureCategory m
  if c = wr then 100 else if (c.idx - wr.idx).natAbs = 1 then 50 else 0

/-- Modelled from the spec: soil-type compatibility scoring; 100 when the
texture class is compatible, 20 when the texture class is unknown, 0
otherwise. -/
def soilTypeScore (tc : TextureClass) (compat : List TextureClass) : ℚ :=
  if tc ∈ compat then 100 else if tc = .unknown then 20 else 0

/-- Modelled from the spec: the pH factor, present exactly when the sample
has a pH value. -/
def phFactor (p : CropProfile) (soil : SoilSample) : Option (String × ℚ) :=
  soil.ph.map fun v => ("pH", tentScore p.optimal_ph_low p.optimal_ph_high v)

/-- Modelled from the spec: the temperature factor, present exactly when a
temperature value is available from weather or soil. -/
def tempFactor (p : CropProfile) (soil : SoilSample) (weather : Option WeatherSnapshot) :
    Option (String × ℚ) :=
  (tempValue soil weather).map fun v =>
    ("temperature", tentScore p.optimal_temp_low p.optimal_temp_high v)

/-- Modelled from the spec: the moisture factor, present exactly when the
sample has a moisture value. -/
def moistureFactor (p : CropProfile) (soil : SoilSample) : Option (String × ℚ) :=
  soil.moisture.map fun m => ("moisture", moistureMatchScore p.water_requirement m)

/-- Modelled from the spec: the soil-type factor; an unknown texture class
excludes the factor instead of penalizing it. -/
def soilTypeFactor (p : CropProfile) (tc : TextureClass) : Option (String × ℚ) :=
  if tc = .unknown then none else some ("soil type", soilTypeScore tc p.compatible_soil_types)

/-- Modelled from the spec: the ordered list of present factors, each a
label paired with its 0 to 100 factor score. -/
def presentFactors (p : CropProfile) (soil : SoilSample) (weather : Option WeatherSnapshot)
    (tc : TextureClass) : List (String × ℚ) :=
  [phFactor p soil, tempFactor p soil weather, moistureFactor p soil,
   soilTypeFactor p tc].filterMap id

/-- Arithmetic mean of the factor scores of a present-factor list. -/
def scoreVal (fs : List (String × ℚ)) : ℚ := (fs.map Prod.snd).sum / (fs.length : ℚ)

/-- Modelled from the spec: confidence is the count of present factors over
the four possible factors, floored at 0.2. -/
def confidenceVal (fs : List (String × ℚ)) : ℚ := max (1/5) ((fs.length : ℚ) / 4)

/-- Order used to rank explanatory factors by contribution, descending. -/
def factorGE (a b : String × ℚ) : Prop := b.2 ≤ a.2

instance : DecidableRel factorGE := fun a b => inferInstanceAs (Decidable (b.2 ≤ a.2))

/-- Modelled from the spec: the explanatory factor strings, one per present
factor, ranked by contribution descending. -/
def factorStrings (fs : List (String × ℚ)) : List String :=
  (List.insertionSort factorGE fs).map Prod.fst

/-- Modelled from the spec: SuitabilityScorer.score; the overall score is
the arithmetic mean of the present factor scores, and when zero factors are
present the score is undefined, so the result is none. -/
def SuitabilityScorer.score (p : CropProfile) (soil : SoilSample)
    (weather : Option WeatherSnapshot) (tc : TextureClass) : Option SuitabilityResult :=
  let fs := presentFactors p soil weather tc
  if fs = [] then none
  else some { crop_name := p.name, score := scoreVal fs, confidence := confidenceVal fs,
              factors := factorStrings fs }

/-- Modelled from the spec: the price used by the financial estimate is the
live market price when a quote is present, else the catalog fallback. -/
def priceOf (p : CropProfile) (market : Option MarketQuote) : ℚ :=
  match market with
  | some m => m.current_price
  | none => p.base_market_price

/-- Modelled from the spec: FinancialEstimator.estimate. -/
def FinancialEstimator.estimate (p : CropProfile) (s area : ℚ)
    (market : Option MarketQuote) : FinEstimate :=
  let y := p.base_yield_per_area * area * (1/2 + 1/2 * s / 100)
  let cost := p.base_cost_per_area * area
  let revenue := y * priceOf p market
  let profit := revenue - cost
  { estimated_yield := y
    estimated_cost := cost
    estimated_profit := profit
    profit_margin := if 0 < revenue then profit / revenue * 100 else 0 }

/-- Modelled from the spec: the three-key ranking order; suitability score
descending, then confidence descending, then crop name ascending. -/
def RecLE (a b : RecommendationResult) : Prop :=
  b.suitability_score < a.suitability_score ∨
    (a.suitability_score = b.suitability_score ∧
      (b.confidence < a.confidence ∨
        (a.confidence = b.confidence ∧ a.crop_name ≤ b.crop_name)))

instance : DecidableRel RecLE := fun a b => by
  unfold RecLE
  infer_instance

/-- Modelled from the spec: deduplication of catalog profiles by crop name,
keeping the first occurrence. -/
def dedupByNameAux : List String → List CropProfile → List CropProfile
  | _, [] => []
  | seen, p :: rest =>
    if p.name ∈ seen then dedupByNameAux seen rest
    else p :: dedupByNameAux (p.name :: seen) rest

/-- Modelled from the spec: deduplication entry point. -/
def dedupByName (l : List CropProfile) : List CropProfile := dedupByNameAux [] l

/-- Modelled from the spec: assemble one RecommendationResult for one crop
profile, or none when the crop's score is undefined. -/
def buildResult (sc : SoilClassification) (soil : SoilSample)
    (weather : Option WeatherSnapshot) (area budget : ℚ)
    (marketOf : String → Option MarketQuote) (p : CropProfile) :
    Option RecommendationResult :=
  (SuitabilityScorer.score p soil weather sc.texture_class).map fun sr =>
    let fin := FinancialEstimator.estimate p sr.score area (marketOf p.name)
    { crop_name := p.name
      suitability_score := sr.score
      confidence := sr.confidence
      estimated_yield := fin.estimated_yield
      estimated_cost := fin.estimated_cost
      estimated_profit := fin.estimated_profit
      profit_margin := fin.profit_margin
      exceeds_budget := decide (budget < fin.estimated_cost)
      market_data := marketOf p.name
      factors := sr.factors }

/-- Modelled from the spec: the full ranked candidate list, before top-K
truncation; crops with undefined score are skipped. -/
def rankedCandidates (cat : List CropProfile) (soil : SoilSample)
    (weather : Option WeatherSnapshot) (area budget : ℚ)
    (marketOf : String → Option MarketQuote) : List RecommendationResult :=
  List.insertionSort RecLE
    ((dedupByName cat).filterMap (buildResult (classify soil) soil weather area budget marketOf))

/-- Modelled from the spec: RecommendationEngine.recommend; a non-positive
farm size is a validation error rejected before scoring with an empty
recommendation list, otherwise the ranked list is truncated to the top K
entries and the count of omitted entries is reported. -/
def recommend (cat : List CropProfile) (soil : SoilSample)
    (weather : Option WeatherSnapshot) (area budget : ℚ)
    (marketOf : String → Option MarketQuote) (k : Nat) : RecommendResponse :=
  if area ≤ 0 then
    { error := some "farm_size must be a positive number", recommendations := [], more_count := 0 }
  else
    let ranked := rankedCandidates cat soil weather area budget marketOf
    { error := none, recommendations := ranked.take k, more_count := ranked.length - k }

/-- The ten optional fields of a soil sample, used to state missing-data
tolerance. -/
inductive SoilField
  | ph
  | nitrogen
  | phosphorus
  | potassium
  | moisture
  | organicMatter
  | temperature
  | clay
  | sand
  | silt
deriving DecidableEq, Repr

/-- Remove one attribute from a soil sample, leaving the rest unchanged. -/
def removeField : SoilField → SoilSample → SoilSample
  | .ph, s => { s with ph := none }
  | .nitrogen, s => { s with nitrogen := none }
  | .phosphorus, s => { s with phosphorus := none }
  | .potassium, s => { s with potassium := none }
  | .moisture, s => { s with moisture := none }
  | .organicMatter, s => { s with organic_matter := none }
  | .temperature, s => { s with temperature := none }
  | .clay, s => { s with clay := none }
  | .sand, s => { s with sand := none }
  | .silt, s => { s with silt := none }

/-- Replace the pH attribute of a soil sample. -/
def withPh (soil : SoilSample) (v : ℚ) : SoilSample := { soil with ph := some v }

lemma div_mono_of_nonneg {a b c : ℚ} (hab : a ≤ b) (hc : 0 ≤ c) : a / c ≤ b / c := by
  rcases eq_or_lt_of_le hc with h | h
  · simp [← h]
  · exact (div_le_div_iff_of_pos_right h).mpr hab

lemma tentScore_nonneg (lo hi v : ℚ) : 0 ≤ tentScore lo hi v := by
  unfold tentScore
  split_ifs
  · norm_num
  · exact le_max_left _ _
  · exact le_max_left _ _

lemma tentScore_le_100 {lo hi : ℚ} (h : lo ≤ hi) (v : ℚ) : tentScore lo hi v ≤ 100 := by
  unfold tentScore
  split_ifs with h1 h2
  · norm_num
  · have hd : (0:ℚ) ≤ hi - lo := by linarith
    have hnum : (0:ℚ) ≤ lo - v := by linarith
    have hq : 0 ≤ (lo - v) / (hi - lo) := div_nonneg hnum hd
    exact max_le (by norm_num) (by nlinarith)
  · have hd : (0:ℚ) ≤ hi - lo := by linarith
    have hv : hi < v := by
      by_contra hc
      push_neg at hc
      exact h1 ⟨not_lt.mp h2, hc⟩
    have hq : 0 ≤ (v - hi) / (hi - lo) := div_nonneg (by linarith) hd
    exact max_le (by norm_num) (by nlinarith)

lemma tentScore_inside {lo hi v : ℚ} (h1 : lo ≤ v) (h2 : v ≤ hi) : tentScore lo hi v = 100 := by
  unfold tentScore
  rw [if_pos ⟨h1, h2⟩]

lemma moistureMatchScore_bounds (wr : WaterReq) (m : ℚ) :
    0 ≤ moistureMatchScore wr m ∧ moistureMatchScore wr m ≤ 100 := by
  simp only [moistureMatchScore]
  split_ifs <;> norm_num

lemma soilTypeScore_bounds (tc : TextureClass) (compat : List TextureClass) :
    0 ≤ soilTypeScore tc compat ∧ soilTypeScore tc compat ≤ 100 := by
  unfold soilTypeScore
  split_ifs <;> norm_num

lemma presentFactors_bounds {p : CropProfile} (soil : SoilSample)
    (weather : Option WeatherSnapshot) (tc : TextureClass)
    (hph : p.optimal_ph_low ≤ p.optimal_ph_high)
    (ht : p.optimal_temp_low ≤ p.optimal_temp_high) :
    ∀ x ∈ presentFactors p soil weather tc, 0 ≤ x.2 ∧ x.2 ≤ 100 := by
  intro x hx
  unfold presentFactors at hx
  rw [List.mem_filterMap] at hx
  obtain ⟨o, ho, hox⟩ := hx
  simp only [id_eq] at hox
  subst hox
  simp only [List.mem_cons, List.not_mem_nil, or_false] at ho
  rcases ho with h | h | h | h
  · obtain ⟨v, _, hv⟩ := Option.map_eq_some'.mp h.symm
    rw [← hv]
    exact ⟨tentScore_nonneg _ _ _, tentScore_le_100 hph _⟩
  · obtain ⟨v, _, hv⟩ := Option.map_eq_some'.mp h.symm
    rw [← hv]
    exact ⟨tentScore_nonneg _ _ _, tentScore_le_100 ht _⟩
  · obtain ⟨v, _, hv⟩ := Option.map_eq_some'.mp h.symm
    rw [← hv]
    exact moistureMatchScore_bounds _ _
  · unfold soilTypeFactor at h
    split_ifs at h
    have hx2 := Option.some.inj h
    rw [hx2]
    exact soilTypeScore_bounds _ _

lemma presentFactors_length_le (p : CropProfile) (soil : SoilSample)
    (weather : Option WeatherSnapshot) (tc : TextureClass) :
    (presentFactors p soil weather tc).length ≤ 4 := by
  have h := List.length_filterMap_le
    (f := (id : Option (String × ℚ) → Option (String × ℚ)))
    (l := [phFactor p soil, tempFactor p soil weather, moistureFactor p soil,
      soilTypeFactor p tc])
  simpa [presentFactors] using h

lemma scoreVal_bounds {fs : List (String × ℚ)} (hne : fs ≠ [])
    (hb : ∀ x ∈ fs, 0 ≤ x.2 ∧ x.2 ≤ 100) : 0 ≤ scoreVal fs ∧ scoreVal fs ≤ 100 := by
  have hlen : 0 < (fs.length : ℚ) := by
    have := List.length_pos.mpr hne
    exact_mod_cast this
  have hsum0 : 0 ≤ (fs.map Prod.snd).sum := by
    apply List.sum_nonneg
    intro a ha
    obtain ⟨x, hx, rfl⟩ := List.mem_map.mp ha
    exact (hb x hx).1
  have hsum100 : (fs.map Prod.snd).sum ≤ (fs.length : ℚ) * 100 := by
    have h := List.sum_le_card_nsmul (fs.map Prod.snd) 100 ?_
    · simpa [List.length_map, nsmul_eq_mul] using h
    · intro a ha
      obtain ⟨x, hx, rfl⟩ := List.mem_map.mp ha
      exact (hb x hx).2
  unfold scoreVal
  constructor
  · exact div_nonneg hsum0 (le_of_lt hlen)
  · rw [div_le_iff₀ hlen]
    linarith

lemma confidenceVal_bounds {fs : List (String × ℚ)} (hlen : fs.length ≤ 4) :
    1/5 ≤ confidenceVal fs ∧ confidenceVal fs ≤ 1 := by
  constructor
  · exact le_max_left _ _
  · apply max_le (by norm_num)
    rw [div_le_one (by norm_num)]
    exact_mod_cast hlen

lemma score_eq_some {p : CropProfile} {soil : SoilSample}
    {weather : Option WeatherSnapshot} {tc : TextureClass}
    (hne : presentFactors p soil weather tc ≠ []) :
    SuitabilityScorer.score p soil weather tc =
      some { crop_name := p.name, score := scoreVal (presentFactors p soil weather tc),
             confidence := confidenceVal (presentFactors p soil weather tc),
             factors := factorStrings (presentFactors p soil weather tc) } := by
  simp [SuitabilityScorer.score, hne]

lemma score_eq_none {p : CropProfile} {soil : SoilSample}
    {weather : Option WeatherSnapshot} {tc : TextureClass}
    (h : presentFactors p soil weather tc = []) :
    SuitabilityScorer.score p soil weather tc = none := by
  simp [SuitabilityScorer.score, h]

/-- Claim C1: for every crop profile with well-formed optimum ranges and
every soil/weather input in which at least one scoring factor is present,
SuitabilityScorer.score returns a suitability score between 0 and 100
inclusive and a confidence equal to the count of present factors over the
four possible factors, floored at 0.2, so the confidence always lies in the
closed interval from 0.2 to 1.0. -/
theorem suitability_score_confidence_bounds (p : CropProfile) (soil : SoilSample)
    (weather : Option WeatherSnapshot) (tc : TextureClass) (r : SuitabilityResult)
    (hph : p.optimal_ph_low ≤ p.optimal_ph_high)
    (ht : p.optimal_temp_low ≤ p.optimal_temp_high)
    (h : SuitabilityScorer.score p soil weather tc = some r) :
    (0 ≤ r.score ∧ r.score ≤ 100) ∧
      r.confidence = max (1/5) (((presentFactors p soil weather tc).length : ℚ) / 4) ∧
      1/5 ≤ r.confidence ∧ r.confidence ≤ 1 := by
  by_cases hne : presentFactors p soil weather tc = []
  · rw [score_eq_none hne] at h
    exact absurd h (by simp)
  · rw [score_eq_some hne] at h
    have hr := Option.some.inj h
    rw [← hr]
    have hb := presentFactors_bounds soil weather tc hph ht
    have hc := confidenceVal_bounds (presentFactors_length_le p soil weather tc)
    exact ⟨scoreVal_bounds hne hb, rfl, hc⟩

/-- Fixture: a wheat-like crop profile used by concrete witnesses. -/
def wheatProfile : CropProfile where
  name := "wheat"
  optimal_ph_low := 6
  optimal_ph_high := 7
  optimal_temp_low := 15
  optimal_temp_high := 25
  water_requirement := .medium
  compatible_soil_types := [.loam, .clayLoam]
  season := "rabi"
  base_yield_per_area := 3000
  base_cost_per_area := 20000
  base_market_price := 25

/-- Fixture: a soil sample used by concrete witnesses. -/
def sampleSoil : SoilSample where
  ph := some (13/2)
  nitrogen := some (1/5)
  phosphorus := some 20
  potassium := some 150
  moisture := some (3/10)
  organic_matter := some 4
  temperature := none
  clay := none
  sand := none
  silt := none

/-- Fixture: a weather snapshot used by concrete witnesses. -/
def sampleWeather : WeatherSnapshot where
  temperature := 25
  humidity := 60

/-- Fixture: the suitability result of the wheat profile on the sample
soil and weather with a loam texture class. -/
def rC1 : SuitabilityResult where
  crop_name := "wheat"
  score := 175/2
  confidence := 1
  factors := ["pH", "temperature", "soil type", "moisture"]

/-- Witness for claim C1 at a concrete profile and sample. -/
theorem suitability_score_confidence_bounds_witness :
    (0 ≤ rC1.score ∧ rC1.score ≤ 100) ∧
      rC1.confidence =
        max (1/5)
          (((presentFactors wheatProfile sampleSoil (some sampleWeather)
              TextureClass.loam).length : ℚ) / 4) ∧
      1/5 ≤ rC1.confidence ∧ rC1.confidence ≤ 1 :=
  suitability_score_confidence_bounds wheatProfile sampleSoil (some sampleWeather)
    .loam rC1 (by norm_num [wheatProfile]) (by norm_num [wheatProfile])
    (by
      have h1 : WaterReq.low ≠ WaterReq.medium := by decide
      have h2 : TextureClass.loam ≠ TextureClass.unknown := by decide
      norm_num [SuitabilityScorer.score, presentFactors, phFactor, tempFactor,
        moistureFactor, soilTypeFactor, tempValue, moistureCategory, moistureMatchScore,
        soilTypeScore, tentScore, scoreVal, confidenceVal, factorStrings, factorGE,
        wheatProfile, sampleSoil, sampleWeather, rC1, WaterReq.idx,
        List.insertionSort, List.orderedInsert, List.filterMap_cons, h1, h2]
      exact fun h => absurd h (by simp))

/-- Claim C5: FinancialEstimator.estimate computes yield, cost, profit and
margin by the spec formulas; the cost depends only on the area and the
profile, not on the suitability score, and the margin is 0 whenever the
revenue is not positive, in particular whenever yield times price is 0, so
the margin computation never divides by zero. -/
theorem estimate_formulas (p : CropProfile) (s area : ℚ) (market : Option MarketQuote) :
    (FinancialEstimator.estimate p s area market).estimated_yield =
        p.base_yield_per_area * area * (1/2 + 1/2 * s / 100) ∧
      (FinancialEstimator.estimate p s area market).estimated_cost =
        p.base_cost_per_area * area ∧
      (∀ s2 : ℚ, (FinancialEstimator.estimate p s2 area market).estimated_cost =
        (FinancialEstimator.estimate p s area market).estimated_cost) ∧
      (FinancialEstimator.estimate p s area market).estimated_profit =
        (FinancialEstimator.estimate p s area market).estimated_yield * priceOf p market -
          (FinancialEstimator.estimate p s area market).estimated_cost ∧
      (0 < (FinancialEstimator.estimate p s area market).estimated_yield * priceOf p market →
        (FinancialEstimator.estimate p s area market).profit_margin =
          (FinancialEstimator.estimate p s area market).estimated_profit /
            ((FinancialEstimator.estimate p s area market).estimated_yield *
              priceOf p market) * 100) ∧
      ((FinancialEstimator.estimate p s area market).estimated_yield * priceOf p market = 0 →
        (FinancialEstimator.estimate p s area market).profit_margin = 0) := by
  unfold FinancialEstimator.estimate
  refine ⟨rfl, rfl, fun s2 => rfl, rfl, ?_, ?_⟩
  · intro h
    simp only
    rw [if_pos h]
  · intro h
    simp only
    rw [if_neg (by rw [h]; exact lt_irrefl 0)]

/-- Fixture: a profile whose fallback market price is zero, so its revenue
is zero with no live quote. -/
def zeroPriceProfile : CropProfile :=
  { wheatProfile with name := "zeromarket", base_market_price := 0 }

/-- Witness for claim C5 at a concrete profile, score, area and no quote. -/
theorem estimate_formulas_witness :
    (FinancialEstimator.estimate zeroPriceProfile 50 2 none).estimated_cost =
        zeroPriceProfile.base_cost_per_area * 2 ∧
      (FinancialEstimator.estimate zeroPriceProfile 50 2 none).profit_margin = 0 :=
  ⟨(estimate_formulas zeroPriceProfile 50 2 none).2.1,
   (estimate_formulas zeroPriceProfile 50 2 none).2.2.2.2.2
     (by norm_num [FinancialEstimator.estimate, priceOf, zeroPriceProfile, wheatProfile])⟩

/-- Claim C8: a non-positive farm size is rejected as a validation error
before any scoring, with an explicit error message and an empty
recommendation list. -/
theorem farm_size_validation (cat : List CropProfile) (soil : SoilSample)
    (weather : Option WeatherSnapshot) (area budget : ℚ)
    (marketOf : String → Option MarketQuote) (k : Nat) (h : area ≤ 0) :
    recommend cat soil weather area budget marketOf k =
      { error := some "farm_size must be a positive number", recommendations := [],
        more_count := 0 } := by
  simp [recommend, h]

/-- Witness for claim C8 at farm size zero. -/
theorem farm_size_validation_witness :
    recommend [wheatProfile] sampleSoil none 0 50000 (fun _ => none) 5 =
      { error := some "farm_size must be a positive number", recommendations := [],
        more_count := 0 } :=
  farm_size_validation [wheatProfile] sampleSoil none 0 50000 (fun _ => none) 5 (by norm_num)

lemma clamp_idem {lo hi : ℚ} (h : lo ≤ hi) (v : ℚ) :
    clamp lo hi (clamp lo hi v) = clamp lo hi v := by
  unfold clamp
  rcases le_total (max lo v) hi with h1 | h1
  · rw [min_eq_right h1, max_eq_right (le_max_left lo v), min_eq_right h1]
  · rw [min_eq_left h1, max_eq_right h, min_self]

lemma map_idem {f : ℚ → ℚ} (hf : ∀ v, f (f v) = f v) (o : Option ℚ) :
    (o.map f).map f = o.map f := by
  cases o <;> simp [hf]

lemma clampSample_idem (s : SoilSample) : clampSample (clampSample s) = clampSample s := by
  have h14 := clamp_idem (show (0:ℚ) ≤ 14 by norm_num)
  have hm1 := clamp_idem (show (0:ℚ) ≤ 1 by norm_num)
  have h100 := clamp_idem (show (0:ℚ) ≤ 100 by norm_num)
  have h0 : ∀ v : ℚ, max 0 (max 0 v) = max 0 v := fun v => max_eq_right (le_max_left 0 v)
  simp only [clampSample, map_idem h14, map_idem hm1, map_idem h100, map_idem h0]

/-- Claim C9: SoilClassifier.classify is total by construction; a present
out-of-range value is clamped to its range bound before scoring, so
classification is invariant under clamping, and a missing clay, sand or
silt value yields the unknown texture class rather than an error. -/
theorem classify_total_and_clamped (s : SoilSample) :
    classify s = classify (clampSample s) ∧
      ((s.clay = none ∨ s.sand = none ∨ s.silt = none) →
        (classify s).texture_class = TextureClass.unknown) := by
  constructor
  · unfold classify
    rw [clampSample_idem]
  · intro h
    rcases h with h | h | h
    · simp [classify, classifyClamped, clampSample, textureClassOf, h]
    · cases hc : s.clay <;>
        simp [classify, classifyClamped, clampSample, textureClassOf, h, hc]
    · cases hc : s.clay <;> cases hs : s.sand <;>
        simp [classify, classifyClamped, clampSample, textureClassOf, h, hc, hs]

/-- Fixture: a soil sample whose pH is out of physical range and whose
texture fractions are absent. -/
def outOfRangeSoil : SoilSample where
  ph := some 20
  nitrogen := none
  phosphorus := none
  potassium := none
  moisture := none
  organic_matter := none
  temperature := none
  clay := none
  sand := none
  silt := none

/-- Witness for claim C9 at a concrete out-of-range sample. -/
theorem classify_total_and_clamped_witness :
    classify outOfRangeSoil = classify (clampSample outOfRangeSoil) ∧
      (classify outOfRangeSoil).texture_class = TextureClass.unknown :=
  ⟨(classify_total_and_clamped outOfRangeSoil).1,
   (classify_total_and_clamped outOfRangeSoil).2 (Or.inl rfl)⟩

lemma recLE_total (a b : RecommendationResult) : RecLE a b ∨ RecLE b a := by
  unfold RecLE
  rcases lt_trichotomy a.suitability_score b.suitability_score with h | h | h
  · exact Or.inr (Or.inl h)
  · rcases lt_trichotomy a.confidence b.confidence with h2 | h2 | h2
    · exact Or.inr (Or.inr ⟨h.symm, Or.inl h2⟩)
    · rcases le_total a.crop_name b.crop_name with h3 | h3
      · exact Or.inl (Or.inr ⟨h, Or.inr ⟨h2, h3⟩⟩)
      · exact Or.inr (Or.inr ⟨h.symm, Or.inr ⟨h2.symm, h3⟩⟩)
    · exact Or.inl (Or.inr ⟨h, Or.inl h2⟩)
  · exact Or.inl (Or.inl h)

lemma recLE_trans (a b c : RecommendationResult) :
    RecLE a b → RecLE b c → RecLE a c := by
  unfold RecLE
  intro hab hbc
  rcases hab with h1 | ⟨e1, h1⟩
  · rcases hbc with h2 | ⟨e2, h2⟩
    · exact Or.inl (h2.trans h1)
    · refine Or.inl ?_
      rw [← e2]
      exact h1
  · rcases hbc with h2 | ⟨e2, h2⟩
    · refine Or.inl ?_
      rw [e1]
      exact h2
    · refine Or.inr ⟨e1.trans e2, ?_⟩
      rcases h1 with g1 | ⟨f1, g1⟩
      · rcases h2 with g2 | ⟨f2, g2⟩
        · exact Or.inl (g2.trans g1)
        · refine Or.inl ?_
          rw [← f2]
          exact g1
      · rcases h2 with g2 | ⟨f2, g2⟩
        · refine Or.inl ?_
          rw [f1]
          exact g2
        · exact Or.inr ⟨f1.trans f2, g1.trans g2⟩

instance : IsTotal RecommendationResult RecLE := ⟨recLE_total⟩

instance : IsTrans RecommendationResult RecLE := ⟨recLE_trans⟩

/-- Claim C2: the output sequence of RecommendationEngine.recommend is
always sorted by suitability score descending, ties broken by confidence
descending and remaining ties by crop name ascending; the three-key
comparison is total and transitive, and every pair of entries of the output
list, in particular every adjacent pair, satisfies it. -/
theorem recommend_output_sorted (cat : List CropProfile) (soil : SoilSample)
    (weather : Option WeatherSnapshot) (area budget : ℚ)
    (marketOf : String → Option MarketQuote) (k : Nat) :
    (∀ a b : RecommendationResult, RecLE a b ∨ RecLE b a) ∧
      (∀ a b c : RecommendationResult, RecLE a b → RecLE b c → RecLE a c) ∧
      List.Sorted RecLE (recommend cat soil weather area budget marketOf k).recommendations := by
  refine ⟨recLE_total, recLE_trans, ?_⟩
  unfold recommend
  split_ifs with h
  · simp
  · exact List.Pairwise.sublist (List.take_sublist k _) (List.sorted_insertionSort RecLE _)

/-- Claim C10: when the request is valid, the returned list never contains
more than K recommendations, it is exactly the first K entries of the
ranked candidate list, and more_count equals the number of ranked
candidates beyond those returned. -/
theorem recommend_topk (cat : List CropProfile) (soil : SoilSample)
    (weather : Option WeatherSnapshot) (area budget : ℚ)
    (marketOf : String → Option MarketQuote) (k : Nat) (h : 0 < area) :
    (recommend cat soil weather area budget marketOf k).recommendations.length ≤ k ∧
      (recommend cat soil weather area budget marketOf k).more_count =
        (rankedCandidates cat soil weather area budget marketOf).length -
          (recommend cat soil weather area budget marketOf k).recommendations.length ∧
      (recommend cat soil weather area budget marketOf k).recommendations =
        (rankedCandidates cat soil weather area budget marketOf).take k := by
  have hn : ¬area ≤ 0 := not_le.mpr h
  unfold recommend
  rw [if_neg hn]
  refine ⟨?_, ?_, rfl⟩
  · simp [List.length_take]
  · simp only [List.length_take]
    omega

/-- Witness for claim C10 at a concrete catalog, area and K. -/
theorem recommend_topk_witness :
    (recommend [wheatProfile, zeroPriceProfile] sampleSoil (some sampleWeather) 2 50000
        (fun _ => none) 1).recommendations.length ≤ 1 ∧
      (recommend [wheatProfile, zeroPriceProfile] sampleSoil (some sampleWeather) 2 50000
          (fun _ => none) 1).more_count =
        (rankedCandidates [wheatProfile, zeroPriceProfile] sampleSoil (some sampleWeather) 2
            50000 (fun _ => none)).length -
          (recommend [wheatProfile, zeroPriceProfile] sampleSoil (some sampleWeather) 2 50000
              (fun _ => none) 1).recommendations.length ∧
      (recommend [wheatProfile, zeroPriceProfile] sampleSoil (some sampleWeather) 2 50000
          (fun _ => none) 1).recommendations =
        (rankedCandidates [wheatProfile, zeroPriceProfile] sampleSoil (some sampleWeather) 2
            50000 (fun _ => none)).take 1 :=
  recommend_topk [wheatProfile, zeroPriceProfile] sampleSoil (some sampleWeather) 2 50000
    (fun _ => none) 1 (by norm_num)

lemma dedupByNameAux_sublist : ∀ (l : List CropProfile) (seen : List String),
    (dedupByNameAux seen l).Sublist l := by
  intro l
  induction l with
  | nil => intro seen; simp [dedupByNameAux]
  | cons p rest ih =>
    intro seen
    unfold dedupByNameAux
    split_ifs
    · exact (ih seen).trans (List.sublist_cons_self p rest)
    · exact (ih _).cons₂ p

lemma dedupByName_sublist (l : List CropProfile) : (dedupByName l).Sublist l :=
  dedupByNameAux_sublist l []

lemma buildResult_some_name {sc : SoilClassification} {soil : SoilSample}
    {weather : Option WeatherSnapshot} {area budget : ℚ}
    {marketOf : String → Option MarketQuote} {p : CropProfile} {r : RecommendationResult}
    (h : buildResult sc soil weather area budget marketOf p = some r) :
    r.crop_name = p.name := by
  unfold buildResult at h
  obtain ⟨sr, _, hr⟩ := Option.map_eq_some'.mp h
  rw [← hr]

lemma mem_recommendations {cat : List CropProfile} {soil : SoilSample}
    {weather : Option WeatherSnapshot} {area budget : ℚ}
    {marketOf : String → Option MarketQuote} {k : Nat} {r : RecommendationResult}
    (h : r ∈ (recommend cat soil weather area budget marketOf k).recommendations) :
    ∃ q ∈ dedupByName cat,
      buildResult (classify soil) soil weather area budget marketOf q = some r := by
  unfold recommend at h
  split_ifs at h
  · simp at h
  · have h1 : r ∈ rankedCandidates cat soil weather area budget marketOf :=
      List.take_subset _ _ h
    have h2 := (List.perm_insertionSort RecLE _).subset h1
    exact List.mem_filterMap.mp h2

/-- Claim C4: a crop profile with zero present scoring factors has an
undefined score (the scorer returns none) and is omitted entirely from the
ranked output rather than being included with score 0 or ranked last. -/
theorem zero_factors_crop_excluded (cat : List CropProfile) (soil : SoilSample)
    (weather : Option WeatherSnapshot) (area budget : ℚ)
    (marketOf : String → Option MarketQuote) (k : Nat) (p : CropProfile)
    (hp : p ∈ cat) (hnodup : (cat.map CropProfile.name).Nodup)
    (hzero : presentFactors p soil weather (classify soil).texture_class = []) :
    SuitabilityScorer.score p soil weather (classify soil).texture_class = none ∧
      ∀ r ∈ (recommend cat soil weather area budget marketOf k).recommendations,
        r.crop_name ≠ p.name := by
  refine ⟨score_eq_none hzero, ?_⟩
  intro r hr hname
  obtain ⟨q, hq, hbuild⟩ := mem_recommendations hr
  have hqcat : q ∈ cat := (dedupByName_sublist cat).subset hq
  have hqp : q.name = p.name := by
    rw [← buildResult_some_name hbuild]
    exact hname
  have hq_eq : q = p := List.inj_on_of_nodup_map hnodup hqcat hp hqp
  rw [hq_eq] at hbuild
  rw [buildResult, score_eq_none hzero] at hbuild
  exact absurd hbuild (by simp)

/-- Fixture: a soil sample with every attribute absent. -/
def emptySoil : SoilSample where
  ph := none
  nitrogen := none
  phosphorus := none
  potassium := none
  moisture := none
  organic_matter := none
  temperature := none
  clay := none
  sand := none
  silt := none

/-- Witness for claim C4 at a concrete catalog and an all-absent sample. -/
theorem zero_factors_crop_excluded_witness :
    SuitabilityScorer.score wheatProfile emptySoil none (classify emptySoil).texture_class =
        none ∧
      ∀ r ∈ (recommend [wheatProfile] emptySoil none 2 50000 (fun _ => none)
          5).recommendations, r.crop_name ≠ wheatProfile.name :=
  zero_factors_crop_excluded [wheatProfile] emptySoil none 2 50000 (fun _ => none) 5
    wheatProfile (by simp) (by simp)
    (by simp [presentFactors, phFactor, tempFactor, moistureFactor, soilTypeFactor,
      tempValue, classify, classifyClamped, clampSample, textureClassOf, emptySoil])

lemma filterMap_id_sublist {X : Type} {l₁ l₂ : List (Option X)}
    (h : List.Forall₂ (fun o₁ o₂ => o₁ = none ∨ o₁ = o₂) l₁ l₂) :
    (l₁.filterMap id).Sublist (l₂.filterMap id) := by
  induction h with
  | nil => simp
  | cons hrel _ ih =>
    rename_i o₁ o₂ t₁ t₂ _
    rcases hrel with h | h
    · rw [h]
      cases o₂ with
      | none => simpa using ih
      | some b =>
        simp only [List.filterMap_cons, id_eq]
        exact ih.trans (List.sublist_cons_self b _)
    · rw [h]
      cases o₂ with
      | none => simpa using ih
      | some b =>
        simp only [List.filterMap_cons, id_eq]
        exact ih.cons₂ b

lemma presentFactors_removeField (f : SoilField) (p : CropProfile) (soil : SoilSample)
    (weather : Option WeatherSnapshot) :
    (presentFactors p (removeField f soil) weather
        (classify (removeField f soil)).texture_class).Sublist
      (presentFactors p soil weather (classify soil).texture_class) := by
  obtain ⟨sf1, sf2, sf3, sf4, sf5, sf6, sf7, scl, ssa, ssi⟩ := soil
  unfold presentFactors
  apply filterMap_id_sublist
  cases f <;> cases weather <;>
    first
      | (refine List.Forall₂.cons ?_ (List.Forall₂.cons ?_ (List.Forall₂.cons ?_
            (List.Forall₂.cons ?_ List.Forall₂.nil))) <;>
          first
            | exact Or.inl rfl
            | exact Or.inr rfl)
      | (cases scl <;> cases ssa <;> cases ssi <;>
          refine List.Forall₂.cons ?_ (List.Forall₂.cons ?_ (List.Forall₂.cons ?_
            (List.Forall₂.cons ?_ List.Forall₂.nil))) <;>
          first
            | exact Or.inl rfl
            | exact Or.inr rfl)

/-- Claim C3: an absent soil attribute is never an error and never defaulted;
removing one soil attribute only drops the factors tied to it (the present
factor list of the reduced sample is a sublist of the original one), never
raises (the engine response error is unchanged), and whenever the reduced
sample still scores, the original sample scores too with a confidence at
least as large. -/
theorem remove_soil_field_tolerant (f : SoilField) (p : CropProfile) (soil : SoilSample)
    (weather : Option WeatherSnapshot) (cat : List CropProfile) (area budget : ℚ)
    (marketOf : String → Option MarketQuote) (k : Nat) (r' : SuitabilityResult)
    (h' : SuitabilityScorer.score p (removeField f soil) weather
        (classify (removeField f soil)).texture_class = some r') :
    (presentFactors p (removeField f soil) weather
        (classify (removeField f soil)).texture_class).Sublist
      (presentFactors p soil weather (classify soil).texture_class) ∧
      (∃ r, SuitabilityScorer.score p soil weather (classify soil).texture_class = some r ∧
        r'.confidence ≤ r.confidence) ∧
      (recommend cat (removeField f soil) weather area budget marketOf k).error =
        (recommend cat soil weather area budget marketOf k).error := by
  have hsub := presentFactors_removeField f p soil weather
  refine ⟨hsub, ?_, ?_⟩
  · have hne' : presentFactors p (removeField f soil) weather
        (classify (removeField f soil)).texture_class ≠ [] := by
      intro hnil
      rw [score_eq_none hnil] at h'
      exact absurd h' (by simp)
    have hlen := hsub.length_le
    have hne : presentFactors p soil weather (classify soil).texture_class ≠ [] := by
      intro hnil
      rw [hnil] at hsub
      exact hne' (List.sublist_nil.mp hsub)
    refine ⟨_, score_eq_some hne, ?_⟩
    rw [score_eq_some hne'] at h'
    have hr' := Option.some.inj h'
    rw [← hr']
    show confidenceVal _ ≤ confidenceVal _
    unfold confidenceVal
    apply max_le_max le_rfl
    apply div_mono_of_nonneg _ (by norm_num)
    exact_mod_cast hlen
  · unfold recommend
    split_ifs <;> rfl

/-- Fixture: the suitability result of the wheat profile on the sample soil
with its pH removed. -/
def rC3 : SuitabilityResult where
  crop_name := "wheat"
  score := 75
  confidence := 1/2
  factors := ["temperature", "moisture"]

/-- Witness for claim C3: removing the pH attribute from the concrete
sample keeps the engine total and does not increase confidence. -/
theorem remove_soil_field_tolerant_witness :
    (presentFactors wheatProfile (removeField .ph sampleSoil) (some sampleWeather)
        (classify (removeField .ph sampleSoil)).texture_class).Sublist
      (presentFactors wheatProfile sampleSoil (some sampleWeather)
        (classify sampleSoil).texture_class) ∧
      (∃ r, SuitabilityScorer.score wheatProfile sampleSoil (some sampleWeather)
          (classify sampleSoil).texture_class = some r ∧ rC3.confidence ≤ r.confidence) ∧
      (recommend [wheatProfile] (removeField .ph sampleSoil) (some sampleWeather) 2 50000
          (fun _ => none) 5).error =
        (recommend [wheatProfile] sampleSoil (some sampleWeather) 2 50000
          (fun _ => none) 5).error :=
  remove_soil_field_tolerant .ph wheatProfile sampleSoil (some sampleWeather) [wheatProfile]
    2 50000 (fun _ => none) 5 rC3
    (by
      have h1 : WaterReq.low ≠ WaterReq.medium := by decide
      norm_num [SuitabilityScorer.score, presentFactors, phFactor, tempFactor,
        moistureFactor, soilTypeFactor, tempValue, moistureCategory, moistureMatchScore,
        soilTypeScore, tentScore, scoreVal, confidenceVal, factorStrings, factorGE,
        classify, classifyClamped, clampSample, textureClassOf, removeField,
        wheatProfile, sampleSoil, sampleWeather, rC3, WaterReq.idx,
        List.insertionSort, List.orderedInsert, List.filterMap_cons, h1]
      exact fun h => absurd h (by simp))

lemma tentScore_mono {lo hi : ℚ} (hwf : lo ≤ hi) {v₁ v₂ : ℚ}
    (hside : (v₂ ≤ v₁ ∧ v₁ ≤ lo) ∨ (hi ≤ v₁ ∧ v₁ ≤ v₂) ∨ (lo ≤ v₁ ∧ v₁ ≤ hi)) :
    tentScore lo hi v₂ ≤ tentScore lo hi v₁ := by
  have hm : (0:ℚ) ≤ hi - lo := by linarith
  rcases hside with ⟨h21, h1lo⟩ | ⟨hhi1, h12⟩ | ⟨hin1, hin2⟩
  · rcases eq_or_lt_of_le h1lo with h | h
    · rw [tentScore_inside (le_of_eq h.symm) (by linarith)]
      exact tentScore_le_100 hwf v₂
    · have hv2 : v₂ < lo := lt_of_le_of_lt h21 h
      have e1 : tentScore lo hi v₁ = max 0 (100 * (1 - (lo - v₁) / (hi - lo))) := by
        unfold tentScore
        rw [if_neg (fun hc => absurd hc.1 (not_le.mpr h)), if_pos h]
      have e2 : tentScore lo hi v₂ = max 0 (100 * (1 - (lo - v₂) / (hi - lo))) := by
        unfold tentScore
        rw [if_neg (fun hc => absurd hc.1 (not_le.mpr hv2)), if_pos hv2]
      rw [e1, e2]
      apply max_le_max le_rfl
      have hd := div_mono_of_nonneg (show lo - v₁ ≤ lo - v₂ by linarith) hm
      nlinarith
  · rcases eq_or_lt_of_le hhi1 with h | h
    · rw [tentScore_inside (show lo ≤ v₁ by linarith) (le_of_eq h.symm)]
      exact tentScore_le_100 hwf v₂
    · have hv2 : hi < v₂ := lt_of_lt_of_le h h12
      have e1 : tentScore lo hi v₁ = max 0 (100 * (1 - (v₁ - hi) / (hi - lo))) := by
        unfold tentScore
        rw [if_neg (fun hc => absurd hc.2 (not_le.mpr h)),
          if_neg (not_lt.mpr (by linarith))]
      have e2 : tentScore lo hi v₂ = max 0 (100 * (1 - (v₂ - hi) / (hi - lo))) := by
        unfold tentScore
        rw [if_neg (fun hc => absurd hc.2 (not_le.mpr hv2)),
          if_neg (not_lt.mpr (by linarith))]
      rw [e1, e2]
      apply max_le_max le_rfl
      have hd := div_mono_of_nonneg (show v₁ - hi ≤ v₂ - hi by linarith) hm
      nlinarith
  · rw [tentScore_inside hin1 hin2]
    exact tentScore_le_100 hwf v₂

lemma presentFactors_withPh (p : CropProfile) (soil : SoilSample)
    (weather : Option WeatherSnapshot) (tc : TextureClass) (v : ℚ) :
    presentFactors p (withPh soil v) weather tc =
      ("pH", tentScore p.optimal_ph_low p.optimal_ph_high v) ::
        [tempFactor p soil weather, moistureFactor p soil,
          soilTypeFactor p tc].filterMap id := by
  have hp : phFactor p (withPh soil v) =
      some ("pH", tentScore p.optimal_ph_low p.optimal_ph_high v) := rfl
  have ht : tempFactor p (withPh soil v) weather = tempFactor p soil weather := rfl
  have hmo : moistureFactor p (withPh soil v) = moistureFactor p soil := rfl
  unfold presentFactors
  rw [hp, ht, hmo]
  simp [List.filterMap_cons]

/-- Claim C7: holding every other input fixed, moving the soil pH farther
away on one side of (or out of) a crop's optimal pH interval never
increases that crop's suitability score, consistent with the per-factor
tent function. -/
theorem score_ph_monotone (p : CropProfile) (soil : SoilSample)
    (weather : Option WeatherSnapshot) (tc : TextureClass) (v₁ v₂ : ℚ)
    (r₁ r₂ : SuitabilityResult)
    (hwf : p.optimal_ph_low ≤ p.optimal_ph_high)
    (hside : (v₂ ≤ v₁ ∧ v₁ ≤ p.optimal_ph_low) ∨
      (p.optimal_ph_high ≤ v₁ ∧ v₁ ≤ v₂) ∨
      (p.optimal_ph_low ≤ v₁ ∧ v₁ ≤ p.optimal_ph_high))
    (h₁ : SuitabilityScorer.score p (withPh soil v₁) weather tc = some r₁)
    (h₂ : SuitabilityScorer.score p (withPh soil v₂) weather tc = some r₂) :
    r₂.score ≤ r₁.score := by
  have e₁ := presentFactors_withPh p soil weather tc v₁
  have e₂ := presentFactors_withPh p soil weather tc v₂
  have hne₁ : presentFactors p (withPh soil v₁) weather tc ≠ [] := by
    rw [e₁]
    simp
  have hne₂ : presentFactors p (withPh soil v₂) weather tc ≠ [] := by
    rw [e₂]
    simp
  rw [score_eq_some hne₁] at h₁
  rw [score_eq_some hne₂] at h₂
  have hr₁ := Option.some.inj h₁
  have hr₂ := Option.some.inj h₂
  rw [← hr₁, ← hr₂]
  show scoreVal _ ≤ scoreVal _
  rw [e₁, e₂]
  unfold scoreVal
  simp only [List.map_cons, List.sum_cons, List.length_cons]
  apply div_mono_of_nonneg _ (by positivity)
  have := tentScore_mono hwf hside
  linarith

/-- Fixture: the suitability result of the wheat profile with only a pH of
8 present. -/
def rC7a : SuitabilityResult where
  crop_name := "wheat"
  score := 0
  confidence := 1/4
  factors := ["pH"]

/-- Fixture: the suitability result of the wheat profile with only a pH of
9 present. -/
def rC7b : SuitabilityResult where
  crop_name := "wheat"
  score := 0
  confidence := 1/4
  factors := ["pH"]

/-- Witness for claim C7: on the high side of the wheat pH interval, pH 9
scores no better than pH 8. -/
theorem score_ph_monotone_witness : rC7b.score ≤ rC7a.score :=
  score_ph_monotone wheatProfile emptySoil none .unknown 8 9 rC7a rC7b
    (by norm_num [wheatProfile])
    (Or.inr (Or.inl (by norm_num [wheatProfile])))
    (by
      norm_num [SuitabilityScorer.score, presentFactors, phFactor, tempFactor,
        moistureFactor, soilTypeFactor, tempValue, withPh, emptySoil, tentScore,
        scoreVal, confidenceVal, factorStrings, factorGE, wheatProfile, rC7a,
        List.insertionSort, List.orderedInsert, List.filterMap_cons])
    (by
      norm_num [SuitabilityScorer.score, presentFactors, phFactor, tempFactor,
        moistureFactor, soilTypeFactor, tempValue, withPh, emptySoil, tentScore,
        scoreVal, confidenceVal, factorStrings, factorGE, wheatProfile, rC7b,
        List.insertionSort, List.orderedInsert, List.filterMap_cons])

lemma cons_append_of_all_eq {α : Type} {a : α} :
    ∀ {u : List α}, (∀ x ∈ u, x = a) → ∀ v : List α, a :: (u ++ v) = u ++ a :: v := by
  intro u
  induction u with
  | nil => intro _ v; rfl
  | cons b w ih =>
    intro h v
    have hb : b = a := h b (List.mem_cons_self b w)
    subst hb
    have hw := ih (fun x hx => h x (List.mem_cons_of_mem b hx)) v
    show b :: (b :: (w ++ v)) = b :: (w ++ b :: v)
    exact congrArg (List.cons b) hw

lemma sorted_perm_eq {α : Type} {R : α → α → Prop} :
    ∀ {l₁ l₂ : List α}, l₁.Perm l₂ → l₁.Sorted R → l₂.Sorted R →
      (∀ a ∈ l₁, ∀ b ∈ l₁, R a b → R b a → a = b) → l₁ = l₂ := by
  intro l₁
  induction l₁ with
  | nil =>
    intro l₂ hp _ _ _
    exact hp.nil_eq
  | cons a t ih =>
    intro l₂ hp hs₁ hs₂ hanti
    have ha : a ∈ l₂ := hp.subset (List.mem_cons_self a t)
    obtain ⟨u, v, rfl⟩ := List.append_of_mem ha
    have hall : ∀ x ∈ u, x = a := by
      intro x hxu
      have hx₂ : x ∈ u ++ a :: v := List.mem_append_left _ hxu
      have hx₁ : x ∈ a :: t := hp.mem_iff.mpr hx₂
      have hxa : R x a :=
        (List.pairwise_append.mp hs₂).2.2 x hxu a (List.mem_cons_self a v)
      rcases List.mem_cons.mp hx₁ with h | h
      · exact h
      · exact hanti x hx₁ a (List.mem_cons_self a t) hxa
          (List.rel_of_sorted_cons hs₁ x h)
    have hp' : t.Perm (u ++ v) := (List.perm_cons a).mp (hp.trans List.perm_middle)
    have ht₂ : (u ++ v).Sorted R :=
      hs₂.sublist ((List.sublist_cons_self a v).append_left u)
    have hanti' : ∀ x ∈ t, ∀ y ∈ t, R x y → R y x → x = y := fun x hx y hy =>
      hanti x (List.mem_cons_of_mem a hx) y (List.mem_cons_of_mem a hy)
    have hteq := ih hp' hs₁.of_cons ht₂ hanti'
    rw [hteq]
    exact cons_append_of_all_eq hall v

lemma dedupByNameAux_eq_self : ∀ (l : List CropProfile) (seen : List String),
    (∀ q ∈ l, q.name ∉ seen) → (l.map CropProfile.name).Nodup →
      dedupByNameAux seen l = l := by
  intro l
  induction l with
  | nil => intro seen _ _; rfl
  | cons p rest ih =>
    intro seen hseen hnodup
    unfold dedupByNameAux
    rw [if_neg (hseen p (List.mem_cons_self p rest))]
    congr 1
    apply ih
    · intro q hq hmem
      rcases List.mem_cons.mp hmem with h | h
      · have hval : p.name ∉ rest.map CropProfile.name :=
          (List.nodup_cons.mp (by simpa using hnodup)).1
        exact hval (h ▸ List.mem_map_of_mem CropProfile.name hq)
      · exact hseen q (List.mem_cons_of_mem p hq) h
    · exact (List.nodup_cons.mp (by simpa using hnodup)).2

lemma dedupByName_eq_self {l : List CropProfile} (h : (l.map CropProfile.name).Nodup) :
    dedupByName l = l :=
  dedupByNameAux_eq_self l [] (fun q _ => List.not_mem_nil q.name) h

lemma recLE_antisymm_name {a b : RecommendationResult} (hab : RecLE a b) (hba : RecLE b a) :
    a.crop_name = b.crop_name := by
  unfold RecLE at hab hba
  rcases hab with h1 | ⟨e1, h1⟩
  · rcases hba with h2 | ⟨e2, h2⟩
    · exact absurd (h1.trans h2) (lt_irrefl _)
    · rw [e2] at h1
      exact absurd h1 (lt_irrefl _)
  · rcases hba with h2 | ⟨e2, h2⟩
    · rw [e1] at h2
      exact absurd h2 (lt_irrefl _)
    · rcases h1 with g1 | ⟨f1, g1⟩
      · rcases h2 with g2 | ⟨f2, g2⟩
        · exact absurd (g1.trans g2) (lt_irrefl _)
        · rw [f2] at g1
          exact absurd g1 (lt_irrefl _)
      · rcases h2 with g2 | ⟨f2, g2⟩
        · rw [f1] at g2
          exact absurd g2 (lt_irrefl _)
        · exact le_antisymm g1 g2

lemma buildResult_filterMap_anti {cat : List CropProfile}
    (hnodup : (cat.map CropProfile.name).Nodup) (sc : SoilClassification)
    (soil : SoilSample) (weather : Option WeatherSnapshot) (area budget : ℚ)
    (marketOf : String → Option MarketQuote) :
    ∀ a ∈ cat.filterMap (buildResult sc soil weather area budget marketOf),
      ∀ b ∈ cat.filterMap (buildResult sc soil weather area budget marketOf),
        RecLE a b → RecLE b a → a = b := by
  intro a ha b hb hab hba
  obtain ⟨pa, hpa, hca⟩ := List.mem_filterMap.mp ha
  obtain ⟨pb, hpb, hcb⟩ := List.mem_filterMap.mp hb
  have hname : pa.name = pb.name := by
    rw [← buildResult_some_name hca, ← buildResult_some_name hcb]
    exact recLE_antisymm_name hab hba
  have hpq : pa = pb := List.inj_on_of_nodup_map hnodup hpa hpb hname
  rw [hpq] at hca
  rw [hca] at hcb
  exact Option.some.inj hcb

/-- Claim C6: RecommendationEngine.recommend is a pure function of its
inputs; in particular it does not depend on the evaluation order of the
per-crop loop, so running it on any permutation of a duplicate-free catalog
produces the identical ranked response. -/
theorem recommend_perm_invariant (cat₁ cat₂ : List CropProfile) (soil : SoilSample)
    (weather : Option WeatherSnapshot) (area budget : ℚ)
    (marketOf : String → Option MarketQuote) (k : Nat)
    (hperm : cat₁.Perm cat₂) (hnodup : (cat₁.map CropProfile.name).Nodup) :
    recommend cat₁ soil weather area budget marketOf k =
      recommend cat₂ soil weather area budget marketOf k := by
  have hnodup₂ : (cat₂.map CropProfile.name).Nodup :=
    ((hperm.map CropProfile.name).nodup_iff).mp hnodup
  have hranked : rankedCandidates cat₁ soil weather area budget marketOf =
      rankedCandidates cat₂ soil weather area budget marketOf := by
    unfold rankedCandidates
    rw [dedupByName_eq_self hnodup, dedupByName_eq_self hnodup₂]
    have hcand := hperm.filterMap (buildResult (classify soil) soil weather area budget marketOf)
    have hps : (List.insertionSort RecLE
        (cat₁.filterMap (buildResult (classify soil) soil weather area budget marketOf))).Perm
          (List.insertionSort RecLE
            (cat₂.filterMap (buildResult (classify soil) soil weather area budget marketOf))) :=
      (List.perm_insertionSort RecLE _).trans
        (hcand.trans (List.perm_insertionSort RecLE _).symm)
    apply sorted_perm_eq hps (List.sorted_insertionSort RecLE _)
      (List.sorted_insertionSort RecLE _)
    intro a ha b hb
    exact buildResult_filterMap_anti hnodup (classify soil) soil weather area budget marketOf
      a ((List.perm_insertionSort RecLE _).subset ha)
      b ((List.perm_insertionSort RecLE _).subset hb)
  unfold recommend
  split_ifs
  · rfl
  · rw [hranked]

/-- Witness for claim C6: swapping the two catalog entries leaves the
response unchanged. -/
theorem recommend_perm_invariant_witness :
    recommend [wheatProfile, zeroPriceProfile] sampleSoil (some sampleWeather) 2 50000
        (fun _ => none) 5 =
      recommend [zeroPriceProfile, wheatProfile] sampleSoil (some sampleWeather) 2 50000
        (fun _ => none) 5 :=
  recommend_perm_invariant [wheatProfile, zeroPriceProfile] [zeroPriceProfile, wheatProfile]
    sampleSoil (some sampleWeather) 2 50000 (fun _ => none) 5
    (List.Perm.swap zeroPriceProfile wheatProfile [])
    (by simp [wheatProfile, zeroPriceProfile])

/-- JavaScript-style numeric defaulting with the or-operator, as used by the
frontend (src/unnamed/part_005, fetchCropRecommendations): the default
replaces an absent value, and also a present 0, since 0 is falsy. -/
def jsOrDefault (d : ℚ) (o : Option ℚ) : ℚ :=
  match o with
  | some v => if v = 0 then d else v
  | none => d

/-- Translated from src/unnamed/part_005 lines 92 to 103: the soil_data
object of the crop-recommendation request built by the frontend; every
missing soil field is replaced by a hard-coded default before the request
reaches the engine, and temperature is not part of soil_data on this path. -/
def fetchRecommendationSoil (s : SoilSample) : SoilSample where
  ph := some (jsOrDefault 7 s.ph)
  nitrogen := some (jsOrDefault (1/5) s.nitrogen)
  phosphorus := some (jsOrDefault 20 s.phosphorus)
  potassium := some (jsOrDefault 150 s.potassium)
  moisture := some (jsOrDefault (3/10) s.moisture)
  organic_matter := some (jsOrDefault 2 s.organic_matter)
  temperature := none
  clay := some (jsOrDefault 30 s.clay)
  sand := some (jsOrDefault 40 s.sand)
  silt := some (jsOrDefault 30 s.silt)

/-- Translated from src/unnamed/part_005 lines 104 to 107: the weather_data
object of the crop-recommendation request; a missing soil temperature is
replaced by 25 and humidity is the constant 60. -/
def fetchRecommendationWeather (s : SoilSample) : WeatherSnapshot where
  temperature := jsOrDefault 25 s.temperature
  humidity := 60

/-- Claim C3 counterexample: on the repository's crop-recommendation request
path (src/unnamed/part_005, fetchCropRecommendations) an absent soil
attribute is replaced by a hard-coded default, so a missing pH of the
all-absent sample reaches the engine as the value 7, not as absent, and the
same happens to every other missing soil field. -/
theorem frontend_soil_defaults_counterexample :
    emptySoil.ph = none ∧ emptySoil.moisture = none ∧
      (fetchRecommendationSoil emptySoil).ph = some 7 ∧
      (fetchRecommendationSoil emptySoil).moisture = some (3/10) ∧
      (fetchRecommendationSoil emptySoil).nitrogen = some (1/5) ∧
      (fetchRecommendationSoil emptySoil).clay = some 30 ∧
      (fetchRecommendationSoil emptySoil).ph ≠ none ∧
      (fetchRecommendationWeather emptySoil).temperature = 25 :=
  ⟨rfl, rfl, rfl, rfl, rfl, rfl, by simp [fetchRecommendationSoil], rfl⟩
